import Mathlib

/-!
# BOOM Card recommendation engine: a shallow embedding

This file embeds, in Lean, the parts of the BOOM Card repository that the
verified properties below are about:

* the Spark batch job `src/data-pipeline/spark/jobs/recommendations.py`
  (`RecommendationEngine`): the implicit-rating CASE of `load_data`, the
  recency weighting, the `weighted_rating` column and the
  minimum-interaction filter of `preprocess_data`, and `_query_to_df`;
* the training script `src/ml/models/recommendation/train.py`
  (`RecommendationModelTrainer`): the `implicit_rating` CASE of
  `fetch_training_data` and the pivot aggregation of
  `create_user_item_matrix`;
* the serving backend `src/backend_fixed_full.py`: the in-memory database,
  `get_current_user`, `get_recommendations` and `create_review`.

Machine floats in the sources only ever hold values that are exact in
binary floating point at the sizes involved (0.5, small sums and halvings
of small decimals), so ratings and weights are embedded as rationals.
-/

namespace BoomCard

/-! ## Spark batch job: `recommendations.py` -/

/-- One raw interaction event as selected by the `interactions_query` of
`RecommendationEngine.load_data`: whether a redemption row joined
(`r.id IS NOT NULL`), whether a favorite row joined (`f.id IS NOT NULL`),
and the partner view count `v.view_count`. -/
structure RawEvent where
  hasRedemption : Bool
  hasFavorite : Bool
  viewCount : Int
  deriving DecidableEq, Repr

/-- The `rating` CASE of `interactions_query` in
`RecommendationEngine.load_data`:
`WHEN r.id IS NOT NULL THEN 5.0 WHEN f.id IS NOT NULL THEN 4.0
WHEN v.view_count > 5 THEN 3.0 WHEN v.view_count > 2 THEN 2.0 ELSE 1.0`. -/
def interactionRating (e : RawEvent) : ℚ :=
  if e.hasRedemption then 5
  else if e.hasFavorite then 4
  else if 5 < e.viewCount then 3
  else if 2 < e.viewCount then 2
  else 1

/-- The `recency_weight` column of `RecommendationEngine.preprocess_data`:
`F.when(days_ago <= 7, 1.0).when(days_ago <= 30, 0.9)
.when(days_ago <= 90, 0.7).otherwise(0.5)`. -/
def recencyWeight (daysAgo : Int) : ℚ :=
  if daysAgo ≤ 7 then 1
  else if daysAgo ≤ 30 then 9 / 10
  else if daysAgo ≤ 90 then 7 / 10
  else 1 / 2

/-- `config.get('recency_weight', 0.8)` from `RecommendationEngine.__init__`:
the configured global recency factor, defaulting to 0.8. -/
def configRecencyWeight (cfg : Option ℚ) : ℚ := cfg.getD (8 / 10)

/-- `config.get('num_recommendations', 20)` from
`RecommendationEngine.__init__`. -/
def configNumRecommendations (cfg : Option ℕ) : ℕ := cfg.getD 20

/-- `config.get('min_interactions', 5)` from
`RecommendationEngine.__init__`. -/
def configMinInteractions (cfg : Option ℕ) : ℕ := cfg.getD 5

/-- The `weighted_rating` column of `RecommendationEngine.preprocess_data`:
`F.col('rating') * F.col('recency_weight') * self.recency_weight`,
where `selfRecency` is the engine's configured factor
(`self.recency_weight`). -/
def weightedRating (selfRecency rating : ℚ) (daysAgo : Int) : ℚ :=
  rating * recencyWeight daysAgo * selfRecency

/-- One row of the interactions DataFrame entering
`RecommendationEngine.preprocess_data`; `daysAgo` is the `days_ago`
column (`F.datediff(current_timestamp, timestamp)`). -/
structure Interaction where
  userId : ℕ
  partnerId : ℕ
  rating : ℚ
  daysAgo : Int
  deriving DecidableEq, Repr

/-- `interactions_df.groupBy('user_id').agg(F.count('*'))` restricted to one
user: the number of interaction rows carrying that `user_id`. -/
def interactionCount (rows : List Interaction) (u : ℕ) : ℕ :=
  (rows.filter fun r => r.userId = u).length

/-- The minimum-interaction filter of `RecommendationEngine.preprocess_data`:
`active_users` keeps the user ids whose row count is at least
`self.min_interactions`, and the inner join keeps exactly the interaction
rows whose `user_id` is among them. -/
def filterActiveUsers (minInteractions : ℕ) (rows : List Interaction) :
    List Interaction :=
  rows.filter fun r => minInteractions ≤ interactionCount rows r.userId

/-! ## Claim C1: the recency weight is the documented step function and is
non-increasing in age -/

/-- C1. For every interaction, the recency weight assigned by
`preprocess_data` is exactly 1.0 for ages of at most 7 days, 0.9 for ages in
(7, 30] days, 0.7 for ages in (30, 90] days and 0.5 beyond; and the weight
is monotonically non-increasing in age: an older interaction never receives
a strictly larger weight. -/
theorem recencyWeight_step_and_antitone :
    (∀ d : Int,
      (d ≤ 7 → recencyWeight d = 1) ∧
      (7 < d → d ≤ 30 → recencyWeight d = 9 / 10) ∧
      (30 < d → d ≤ 90 → recencyWeight d = 7 / 10) ∧
      (90 < d → recencyWeight d = 1 / 2)) ∧
    ∀ a b : Int, a ≤ b → recencyWeight b ≤ recencyWeight a := by
  constructor
  · intro d
    refine ⟨fun h => ?_, fun h1 h2 => ?_, fun h1 h2 => ?_, fun h => ?_⟩ <;>
      (unfold recencyWeight; split_ifs <;> first | rfl | omega)
  · intro a b hab
    unfold recencyWeight
    split_ifs <;> first | omega | norm_num

/-- Witness for C1 at concrete inputs: an interaction 3 days old gets weight
1, and an interaction 40 days old gets a weight no larger than one 10 days
old. -/
theorem recencyWeight_step_and_antitone_witness :
    recencyWeight 3 = 1 ∧ recencyWeight 40 ≤ recencyWeight 10 :=
  ⟨(recencyWeight_step_and_antitone.1 3).1 (by decide),
    recencyWeight_step_and_antitone.2 10 40 (by decide)⟩

/-! ## Claim C4: users below the interaction threshold are removed
entirely -/

/-- C4. If a user's total interaction count within the window is strictly
below the minimum-interaction threshold, the `active_users` filter and inner
join of `preprocess_data` remove every one of that user's rows: the user is
absent from the filtered interaction table, not present with zero values. -/
theorem filterActiveUsers_excludes (minInteractions : ℕ)
    (rows : List Interaction) (u : ℕ)
    (h : interactionCount rows u < minInteractions) :
    (filterActiveUsers minInteractions rows).filter
      (fun r => r.userId = u) = [] := by
  rw [List.filter_eq_nil_iff]
  intro r hr hru
  rcases List.mem_filter.mp hr with ⟨-, hcond⟩
  have hle : minInteractions ≤ interactionCount rows r.userId := by
    simpa using hcond
  have hru2 : r.userId = u := by simpa using hru
  rw [hru2] at hle
  exact absurd hle (not_le.mpr h)

/-- Witness for C4: with the default threshold 5, a user with only two
interaction rows has no row at all in the filtered table. -/
theorem filterActiveUsers_excludes_witness :
    (filterActiveUsers (configMinInteractions none)
      [⟨1, 10, 5, 2⟩, ⟨1, 11, 4, 3⟩, ⟨2, 10, 1, 1⟩]).filter
      (fun r => r.userId = 1) = [] :=
  filterActiveUsers_excludes (configMinInteractions none)
    [⟨1, 10, 5, 2⟩, ⟨1, 11, 4, 3⟩, ⟨2, 10, 1, 1⟩] 1 (by decide)

/-! ## Claim C10: the weighted rating carries an extra global 0.8 factor -/

/-- C10. The weighted rating actually used for training is
`rating * recency_weight * self.recency_weight`, where `self.recency_weight`
is the config value under key `'recency_weight'` with default 0.8; with the
default configuration every effective weight equals the documented
1.0/0.9/0.7/0.5 step weight scaled by 0.8, hence is strictly below
`rating * recencyWeight` for every positive rating. -/
theorem weightedRating_global_factor :
    configRecencyWeight none = 8 / 10 ∧
    (∀ (r : ℚ) (d : Int),
      weightedRating (configRecencyWeight none) r d
        = r * recencyWeight d * (8 / 10)) ∧
    ∀ (r : ℚ) (d : Int), 0 < r →
      weightedRating (configRecencyWeight none) r d < r * recencyWeight d := by
  refine ⟨rfl, fun r d => rfl, fun r d hr => ?_⟩
  have hw : 0 < recencyWeight d := by
    unfold recencyWeight; split_ifs <;> norm_num
  have hrw : 0 < r * recencyWeight d := mul_pos hr hw
  show r * recencyWeight d * (8 / 10) < r * recencyWeight d
  nlinarith [hrw]

/-- Witness for C10 at a concrete input: a rating of 5 at age 3 days is
weighted to 5 · 1 · 0.8 = 4, strictly below the unscaled 5 · 1. -/
theorem weightedRating_global_factor_witness :
    weightedRating (configRecencyWeight none) 5 3 = 5 * recencyWeight 3 * (8 / 10) ∧
    weightedRating (configRecencyWeight none) 5 3 < 5 * recencyWeight 3 :=
  ⟨weightedRating_global_factor.2.1 5 3,
    weightedRating_global_factor.2.2 5 3 (by norm_num)⟩

/-! ## Training script: `train.py` -/

/-- The `implicit_rating` CASE of
`RecommendationModelTrainer.fetch_training_data`:
`WHEN ui.user_partner_count > 3 THEN 5 WHEN ui.user_partner_count > 2 THEN 4
WHEN ui.user_partner_count > 1 THEN 3 ELSE 2`, where `user_partner_count`
counts a user's completed transactions at one partner. -/
def trainImplicitRating (userPartnerCount : ℕ) : ℚ :=
  if 3 < userPartnerCount then 5
  else if 2 < userPartnerCount then 4
  else if 1 < userPartnerCount then 3
  else 2

/-- One row of the training DataFrame handed to
`RecommendationModelTrainer.create_user_item_matrix`. -/
structure TrainRow where
  userId : ℕ
  partnerId : ℕ
  implicitRating : ℚ
  deriving DecidableEq, Repr

/-- The multiset of `implicit_rating` values sharing one
(`user_id`, `partner_id`) cell of the pivot in `create_user_item_matrix`. -/
def cellRatings (rows : List TrainRow) (u p : ℕ) : List ℚ :=
  (rows.filter fun r => r.userId = u ∧ r.partnerId = p).map
    fun r => r.implicitRating

/-- The user-item matrix entry produced by
`RecommendationModelTrainer.create_user_item_matrix`:
`df.pivot_table(index='user_id', columns='partner_id',
values='implicit_rating', fill_value=0)`. `pivot_table` is called without
an `aggfunc` argument, so pandas applies its default aggregator, the
arithmetic mean, to duplicate cells; absent cells become `fill_value` 0. -/
def matrixEntry (rows : List TrainRow) (u p : ℕ) : ℚ :=
  let cell := cellRatings rows u p
  if cell.length = 0 then 0 else cell.sum / cell.length

/-- Error taxonomy named by the specification (`DataIntegrityError`,
`ModelFitError`, `CacheUnavailableError`). No exception class with any of
these names is defined or raised anywhere in the source tree; the type
exists here so that their absence from the pipeline's behaviour is
statable. -/
inductive PipelineError where
  | dataIntegrity
  | modelFit
  | cacheUnavailable
  deriving DecidableEq, Repr

/-- `RecommendationEngine._query_to_df`: executes a query, and
`if not rows: return self.spark.createDataFrame([], StructType([]))` — on an
empty result set it returns an empty DataFrame and continues; it raises
nothing. Embedded with an explicit error channel so that the absence of any
raised error is statable. -/
def queryToDf (rows : List TrainRow) : Except PipelineError (List TrainRow) :=
  if rows.isEmpty then Except.ok [] else Except.ok rows

/-- `RecommendationModelTrainer.create_user_item_matrix` as the pipeline
step: it pivots whatever rows it is given into the sparse matrix, with no
emptiness validation and no raise of any pipeline error. -/
def createUserItemMatrix (rows : List TrainRow) :
    Except PipelineError (ℕ → ℕ → ℚ) :=
  Except.ok (matrixEntry rows)

/-! ## Claim C3: how the implicit rating is derived

The Spark job's `interactions_query` does derive its rating by the claimed
event-type priority (redemption 5.0 > favorite 4.0 > view_count > 5 → 3.0 >
view_count > 2 → 2.0 > else 1.0). The training script's `implicit_rating`
CASE, also cited by the claim, does not: it is a function of the repeat
completed-transaction count only (> 3 → 5, > 2 → 4, > 1 → 3, else 2), takes
values in {2, 3, 4, 5}, and never yields the claimed lowest value 1.0. -/

/-- Counterexample for C3: in `train.py` a (user, partner) pair whose only
event is a single completed transaction — a redemption — receives implicit
rating 2, not the 5.0 the claimed event-type priority assigns to
redemptions; nor is 1.0, the claimed bottom of the scale, ever produced. -/
theorem trainImplicitRating_not_event_priority :
    trainImplicitRating 1 = 2 ∧
    ¬ trainImplicitRating 1 = 5 ∧ ¬ trainImplicitRating 1 = 1 := by
  refine ⟨rfl, ?_, ?_⟩ <;> decide

/-- C3 (amended). The Spark pipeline's rating follows the event-type
priority — redemption 5.0, else favorite 4.0, else 3.0 for more than five
views, else 2.0 for more than two views, else 1.0 — and lies in
{1, …, 5}; the training script's `implicit_rating` is instead determined by
the repeat-transaction count (> 3 → 5, > 2 → 4, > 1 → 3, else 2) and lies
in {2, …, 5}, never 1. -/
theorem implicitRating_priority_and_train_counts :
    (∀ e : RawEvent,
      (e.hasRedemption = true → interactionRating e = 5) ∧
      (e.hasRedemption = false → e.hasFavorite = true →
        interactionRating e = 4) ∧
      (e.hasRedemption = false → e.hasFavorite = false → 5 < e.viewCount →
        interactionRating e = 3) ∧
      (e.hasRedemption = false → e.hasFavorite = false → 2 < e.viewCount →
        e.viewCount ≤ 5 → interactionRating e = 2) ∧
      (e.hasRedemption = false → e.hasFavorite = false → e.viewCount ≤ 2 →
        interactionRating e = 1) ∧
      interactionRating e ∈ ([1, 2, 3, 4, 5] : List ℚ)) ∧
    ∀ c : ℕ,
      (3 < c → trainImplicitRating c = 5) ∧
      (c = 3 → trainImplicitRating c = 4) ∧
      (c = 2 → trainImplicitRating c = 3) ∧
      (c ≤ 1 → trainImplicitRating c = 2) ∧
      trainImplicitRating c ∈ ([2, 3, 4, 5] : List ℚ) := by
  constructor
  · intro e
    refine ⟨fun h => ?_, fun h1 h2 => ?_, fun h1 h2 h3 => ?_,
      fun h1 h2 h3 h4 => ?_, fun h1 h2 h3 => ?_, ?_⟩ <;>
      unfold interactionRating <;>
      simp_all <;> split_ifs <;> simp_all <;> omega
  · intro c
    refine ⟨fun h => ?_, fun h => ?_, fun h => ?_, fun h => ?_, ?_⟩ <;>
      unfold trainImplicitRating <;>
      first
        | (subst h; decide)
        | (split_ifs <;> simp_all <;> omega)

/-- Witness for C3 (amended) at concrete inputs: a redemption event rates
5.0, a favorite-only event 4.0, a three-view event 2.0; and a pair with
exactly three completed transactions rates 4 in `train.py`. -/
theorem implicitRating_priority_witness :
    interactionRating ⟨true, false, 0⟩ = 5 ∧
    interactionRating ⟨false, true, 0⟩ = 4 ∧
    interactionRating ⟨false, false, 3⟩ = 2 ∧
    trainImplicitRating 3 = 4 :=
  ⟨(implicitRating_priority_and_train_counts.1 ⟨true, false, 0⟩).1 rfl,
    (implicitRating_priority_and_train_counts.1 ⟨false, true, 0⟩).2.1 rfl rfl,
    (implicitRating_priority_and_train_counts.1
      ⟨false, false, 3⟩).2.2.2.1 rfl rfl (by decide) (by decide),
    (implicitRating_priority_and_train_counts.2 3).2.1 rfl⟩

/-! ## Claim C2: duplicate (user, partner) pairs are averaged, not maxed -/

/-- Counterexample for C2: two rows for the same (user, partner) pair with
ratings 2 and 5 pivot to the entry 7/2 — their arithmetic mean — not their
maximum 5. -/
theorem matrixEntry_mean_not_max :
    matrixEntry [⟨1, 2, 2⟩, ⟨1, 2, 5⟩] 1 2 = 7 / 2 ∧
    ¬ matrixEntry [⟨1, 2, 2⟩, ⟨1, 2, 5⟩] 1 2 = 5 := by
  constructor <;> norm_num [matrixEntry, cellRatings]

/-- C2 (amended). When `create_user_item_matrix` receives more than one row
for the same (user_id, partner_id) pair, the stored entry is the arithmetic
mean of the duplicate ratings (pandas `pivot_table`'s default aggregator) —
in particular it never exceeds any upper bound of the duplicates, so a
single strong redemption among weak views does not dominate. -/
theorem matrixEntry_is_mean (rows : List TrainRow) (u p : ℕ)
    (h : cellRatings rows u p ≠ []) :
    matrixEntry rows u p
      = (cellRatings rows u p).sum / (cellRatings rows u p).length ∧
    ∀ M : ℚ, (∀ x ∈ cellRatings rows u p, x ≤ M) →
      matrixEntry rows u p ≤ M := by
  have hlen : (cellRatings rows u p).length ≠ 0 := by
    simpa [List.length_eq_zero] using h
  constructor
  · unfold matrixEntry
    simp [hlen]
  · intro M hM
    unfold matrixEntry
    simp only [hlen, if_false]
    have hpos : (0 : ℚ) < (cellRatings rows u p).length := by
      exact_mod_cast Nat.pos_of_ne_zero hlen
    rw [div_le_iff₀ hpos]
    have hsum : (cellRatings rows u p).sum
        ≤ (cellRatings rows u p).length • M :=
      List.sum_le_card_nsmul _ M hM
    calc (cellRatings rows u p).sum
        ≤ (cellRatings rows u p).length • M := hsum
      _ = M * (cellRatings rows u p).length := by
          rw [nsmul_eq_mul]; ring

/-- Witness for C2 (amended): on the duplicate pair with ratings 2 and 5 the
entry is (2 + 5)/2 and is at most the maximum 5. -/
theorem matrixEntry_is_mean_witness :
    matrixEntry [⟨1, 2, 2⟩, ⟨1, 2, 5⟩] 1 2
        = (cellRatings [⟨1, 2, 2⟩, ⟨1, 2, 5⟩] 1 2).sum
          / (cellRatings [⟨1, 2, 2⟩, ⟨1, 2, 5⟩] 1 2).length ∧
    matrixEntry [⟨1, 2, 2⟩, ⟨1, 2, 5⟩] 1 2 ≤ 5 :=
  ⟨(matrixEntry_is_mean [⟨1, 2, 2⟩, ⟨1, 2, 5⟩] 1 2 (by decide)).1,
    (matrixEntry_is_mean [⟨1, 2, 2⟩, ⟨1, 2, 5⟩] 1 2 (by decide)).2 5
      (by decide)⟩

/-! ## Claim C5: empty input and `DataIntegrityError` -/

/-- Counterexample for C5: on an empty result set `_query_to_df` returns an
empty DataFrame — it does not raise — and the matrix construction step
accepts the empty input and yields the all-zero (empty) matrix; no
`DataIntegrityError` is raised, and indeed no such class exists in the
source. -/
theorem emptyInput_no_dataIntegrityError :
    queryToDf [] = Except.ok [] ∧
    createUserItemMatrix [] = Except.ok (matrixEntry []) ∧
    ¬ queryToDf [] = Except.error PipelineError.dataIntegrity ∧
    matrixEntry [] 1 2 = 0 := by
  refine ⟨rfl, rfl, ?_, rfl⟩
  intro h
  simp [queryToDf] at h

/-- C5 (amended). If the input to the interaction-matrix construction step
is empty after filtering, the step does not raise a `DataIntegrityError`
(no such error exists in the code): `_query_to_df` returns an empty
DataFrame, `create_user_item_matrix` performs no emptiness validation, and
the resulting matrix is the all-zero (empty) one. -/
theorem matrix_step_never_raises (rows : List TrainRow) :
    (∀ e : PipelineError, ¬ queryToDf rows = Except.error e) ∧
    (∀ e : PipelineError,
      ¬ createUserItemMatrix rows = Except.error e) ∧
    (rows = [] →
      queryToDf rows = Except.ok [] ∧ ∀ u p : ℕ, matrixEntry rows u p = 0) := by
  refine ⟨fun e h => ?_, fun e h => ?_, fun h => ?_⟩
  · unfold queryToDf at h
    split_ifs at h
  · cases h
  · subst h
    exact ⟨rfl, fun u p => rfl⟩

/-- Witness for C5 (amended) at the empty input: the query step returns the
empty DataFrame and the (3, 4) entry of the resulting matrix is 0. -/
theorem matrix_step_never_raises_witness :
    queryToDf [] = Except.ok [] ∧ matrixEntry [] 3 4 = 0 :=
  ⟨((matrix_step_never_raises []).2.2 rfl).1,
    ((matrix_step_never_raises []).2.2 rfl).2 3 4⟩

/-! ## Serving backend: `backend_fixed_full.py`

The in-memory `Database` holds `users` and `partners` (insertion-ordered
dicts, modelled as lists with unique keys), `sessions` (token → user id) and
`reviews`. Structure fields that no embedded endpoint consults (names,
emails, discounts, tags, timestamps, comments) are omitted. -/

/-- A partner record (`Partner` pydantic model), restricted to the fields
the embedded endpoints read or write. -/
structure PartnerRec where
  id : String
  category : String
  rating : ℚ
  reviewsCount : ℕ
  deriving DecidableEq, Repr

/-- A user record (`User` pydantic model), restricted to the fields the
embedded endpoints read. -/
structure UserRec where
  id : String
  favoriteCategories : List String
  deriving DecidableEq, Repr

/-- A stored review (`Review` pydantic model), restricted to the fields the
embedded endpoints write. -/
structure ReviewRec where
  userId : String
  partnerId : String
  rating : ℚ
  deriving DecidableEq, Repr

/-- The in-memory `Database` of `backend_fixed_full.py`. -/
structure Db where
  users : List UserRec
  partners : List PartnerRec
  sessions : List (String × String)
  reviews : List ReviewRec
  deriving DecidableEq, Repr

/-- A FastAPI endpoint outcome: a JSON payload, or an `HTTPException`
raised with a status code and detail string. -/
inductive ApiResult (α : Type) where
  | ok (value : α)
  | httpError (status : ℕ) (detail : String)
  deriving DecidableEq, Repr

/-- `get_current_user(token)`: `if not token or token not in db.sessions:
return None; return db.sessions.get(token)`. A missing or empty token is
falsy. -/
def get_current_user (db : Db) (token : Option String) : Option String :=
  match token with
  | none => none
  | some t =>
      if t = "" then none
      else (db.sessions.find? fun kv => kv.1 = t).map fun kv => kv.2

/-- `db.users.get(user_id)` on the users dict. -/
def findUser (db : Db) (uid : String) : Option UserRec :=
  db.users.find? fun u => u.id = uid

/-- `[p for p in db.partners.values() if p.category == category]`. -/
def categoryPartners (db : Db) (c : String) : List PartnerRec :=
  db.partners.filter fun p => p.category = c

/-- The `/api/recommendations` endpoint `get_recommendations(token)`:
unauthenticated callers get the first six partners (reason "Popular
choices"); an authenticated caller whose user record is missing gets
`HTTPException(404)`; otherwise the first three partners of each favorite
category are concatenated and the first six returned. -/
def get_recommendations (db : Db) (token : Option String) :
    ApiResult (List PartnerRec) :=
  match get_current_user db token with
  | none => ApiResult.ok (db.partners.take 6)
  | some uid =>
      match findUser db uid with
      | none => ApiResult.httpError 404 "User not found"
      | some user =>
          ApiResult.ok
            ((user.favoriteCategories.flatMap
              fun c => (categoryPartners db c).take 3).take 6)

/-- The request body of `/api/reviews` (partner id and rating). -/
structure ReviewIn where
  partnerId : String
  rating : ℚ
  deriving DecidableEq, Repr

/-- The `/api/reviews` endpoint `create_review(review, token)`:
unauthenticated callers get `HTTPException(401)`; otherwise the review is
appended, and if the partner exists its `reviews_count` is incremented and
its stored rating replaced by `(partner.rating + review["rating"]) / 2`. -/
def create_review (db : Db) (token : Option String) (rv : ReviewIn) :
    ApiResult Db :=
  match get_current_user db token with
  | none => ApiResult.httpError 401 "Unauthorized"
  | some uid =>
      ApiResult.ok
        { db with
          reviews := db.reviews ++ [⟨uid, rv.partnerId, rv.rating⟩],
          partners := db.partners.map fun p =>
            if p.id = rv.partnerId then
              { p with reviewsCount := p.reviewsCount + 1,
                       rating := (p.rating + rv.rating) / 2 }
            else p }

/-- The stored rating of one partner, read off the partners dict. -/
def partnerRating (db : Db) (pid : String) : Option ℚ :=
  (db.partners.find? fun p => p.id = pid).map fun p => p.rating

/-- A sequence of `/api/reviews` posts with one token, applied in order; a
rejected post leaves the database unchanged (the exception is raised before
anything is written). -/
def create_review_run (db : Db) (token : Option String)
    (posts : List ReviewIn) : Db :=
  posts.foldl
    (fun d rv =>
      match create_review d token rv with
      | ApiResult.ok d2 => d2
      | ApiResult.httpError _ _ => d)
    db

/-! ## Claim C6: whether `get_recommendations` can raise -/

/-- Counterexample for C6: with a session whose token maps to a user id
that has no stored profile, `get_recommendations` raises
`HTTPException(404, "User not found")` instead of returning a list. -/
theorem get_recommendations_raises_404 :
    get_recommendations (⟨[], [], [("t", "99")], []⟩ : Db) (some "t")
      = ApiResult.httpError 404 "User not found" := rfl

/-- C6 (amended). `get_recommendations` returns a list for every
unauthenticated caller (no, empty, or unknown token) and for every
authenticated caller whose user record exists; but for a token whose
session maps to a user id with no stored profile it raises
`HTTPException(404)`. -/
theorem get_recommendations_total_unless_dangling (db : Db)
    (token : Option String) :
    (get_current_user db token = none →
      get_recommendations db token = ApiResult.ok (db.partners.take 6)) ∧
    (∀ uid user, get_current_user db token = some uid →
      findUser db uid = some user →
      get_recommendations db token
        = ApiResult.ok
            ((user.favoriteCategories.flatMap
              fun c => (categoryPartners db c).take 3).take 6)) ∧
    (∀ uid, get_current_user db token = some uid → findUser db uid = none →
      get_recommendations db token
        = ApiResult.httpError 404 "User not found") := by
  refine ⟨fun h => ?_, fun uid user h1 h2 => ?_, fun uid h1 h2 => ?_⟩
  · simp [get_recommendations, h]
  · simp [get_recommendations, h1, h2]
  · simp [get_recommendations, h1, h2]

/-- Witness for C6 (amended): an anonymous call on an empty catalog returns
the empty list, and a call with a dangling session returns the 404 error. -/
theorem get_recommendations_total_unless_dangling_witness :
    get_recommendations (⟨[], [], [], []⟩ : Db) none = ApiResult.ok [] ∧
    get_recommendations (⟨[], [], [("s", "7")], []⟩ : Db) (some "s")
      = ApiResult.httpError 404 "User not found" :=
  ⟨(get_recommendations_total_unless_dangling
      (⟨[], [], [], []⟩ : Db) none).1 rfl,
    (get_recommendations_total_unless_dangling
      (⟨[], [], [("s", "7")], []⟩ : Db) (some "s")).2.2 "7" rfl rfl⟩

/-! ## Claim C7: the fallback for users without personalization -/

/-- Counterexample for C7: an authenticated brand-new user with no favorite
categories (and zero recorded interactions — interactions are never
consulted) receives the empty list, not the trending/popular fallback,
even though the catalog is non-empty. -/
theorem new_user_gets_empty_list :
    get_recommendations
      (⟨[⟨"9", []⟩], [⟨"1", "Fine Dining", 4, 0⟩], [("t", "9")], []⟩ : Db)
      (some "t")
      = ApiResult.ok [] ∧
    ([⟨"1", "Fine Dining", 4, 0⟩] : List PartnerRec) ≠ [] := by
  exact ⟨rfl, by simp⟩

/-- C7 (amended). Only unauthenticated callers fall back to the global
popular list: with a non-empty catalog they always receive a non-empty
"Popular choices" list (the first six partners). An authenticated user is
served exclusively from their favorite categories, with no fallback: a
brand-new user whose favorite-category list is empty receives the empty
list. -/
theorem popular_fallback_anonymous_only (db : Db) (token : Option String) :
    (get_current_user db token = none → db.partners ≠ [] →
      get_recommendations db token = ApiResult.ok (db.partners.take 6) ∧
        db.partners.take 6 ≠ []) ∧
    ∀ uid user, get_current_user db token = some uid →
      findUser db uid = some user → user.favoriteCategories = [] →
      get_recommendations db token = ApiResult.ok [] := by
  constructor
  · intro h hne
    constructor
    · simp [get_recommendations, h]
    · simp [List.take_eq_nil_iff, hne]
  · intro uid user h1 h2 hfav
    simp [get_recommendations, h1, h2, hfav]

/-- Witness for C7 (amended): an anonymous caller over a one-partner
catalog gets that partner; the seeded-session new user with no favorite
categories gets `[]`. -/
theorem popular_fallback_anonymous_only_witness :
    (get_recommendations (⟨[], [⟨"1", "Fine Dining", 4, 0⟩], [], []⟩ : Db)
        none
      = ApiResult.ok (([⟨"1", "Fine Dining", 4, 0⟩] : List PartnerRec).take 6) ∧
      ([⟨"1", "Fine Dining", 4, 0⟩] : List PartnerRec).take 6 ≠ []) ∧
    get_recommendations
      (⟨[⟨"8", []⟩], [⟨"1", "Fine Dining", 4, 0⟩], [("u", "8")], []⟩ : Db)
      (some "u")
      = ApiResult.ok [] :=
  ⟨(popular_fallback_anonymous_only
      (⟨[], [⟨"1", "Fine Dining", 4, 0⟩], [], []⟩ : Db) none).1 rfl
      (by simp),
    (popular_fallback_anonymous_only
      (⟨[⟨"8", []⟩], [⟨"1", "Fine Dining", 4, 0⟩], [("u", "8")], []⟩ : Db)
      (some "u")).2 "8" ⟨"8", []⟩ rfl rfl rfl⟩

/-! ## Claim C8: the served list is short and duplicate-free -/

/-- Any partner appearing in a category's three-partner slice is a catalog
partner of that category. -/
theorem mem_take_categoryPartners {db : Db} {c : String} {p : PartnerRec}
    (h : p ∈ (categoryPartners db c).take 3) :
    p ∈ db.partners ∧ p.category = c := by
  have hmem := List.mem_of_mem_take h
  have := List.mem_filter.mp hmem
  exact ⟨this.1, by simpa using this.2⟩

/-- C8. Whenever `get_recommendations` returns a list, its length is at
most 6 — hence at most `num_recommendations` (default 20) — and, given the
database invariants that partner ids are unique (partners live in a dict
keyed by id) and no user's favorite-category list repeats a category (as
seeded, and never mutated by any endpoint), the list contains no duplicate
partner ids. -/
theorem get_recommendations_bounded_nodup (db : Db) (token : Option String)
    (l : List PartnerRec)
    (hok : get_recommendations db token = ApiResult.ok l)
    (hp : (db.partners.map PartnerRec.id).Nodup)
    (hu : ∀ u ∈ db.users, u.favoriteCategories.Nodup) :
    l.length ≤ 6 ∧ 6 ≤ configNumRecommendations none ∧
    (l.map PartnerRec.id).Nodup := by
  unfold get_recommendations at hok
  split at hok
  · cases hok
    refine ⟨List.length_take_le 6 db.partners, by decide, ?_⟩
    rw [List.map_take]
    exact hp.sublist (List.take_sublist 6 (db.partners.map PartnerRec.id))
  · split at hok
    · cases hok
    · rename_i uid hcu user hfu
      cases hok
      have huser : user ∈ db.users := List.mem_of_find?_eq_some hfu
      have hfavs : user.favoriteCategories.Nodup := hu user huser
      refine ⟨List.length_take_le 6 _, by decide, ?_⟩
      rw [List.map_take]
      refine List.Nodup.sublist (List.take_sublist 6 _) ?_
      rw [List.map_flatMap]
      refine List.nodup_flatMap.2 ⟨fun c _ => ?_, ?_⟩
      · have hsub :
            List.Sublist ((categoryPartners db c).take 3) db.partners :=
          (List.take_sublist 3 _).trans (List.filter_sublist _)
        exact hp.sublist (hsub.map PartnerRec.id)
      · refine List.Pairwise.imp ?_ hfavs
        intro c1 c2 hne i hi1 hi2
        obtain ⟨p, hp1, rfl⟩ := List.mem_map.mp hi1
        obtain ⟨q, hq1, hqi⟩ := List.mem_map.mp hi2
        obtain ⟨hpmem, hpc⟩ := mem_take_categoryPartners hp1
        obtain ⟨hqmem, hqc⟩ := mem_take_categoryPartners hq1
        have hpq : p = q :=
          List.inj_on_of_nodup_map hp hpmem hqmem hqi.symm
        exact hne (hpc ▸ hqc ▸ congrArg PartnerRec.category hpq)

/-- Witness for C8: on a two-category catalog with a two-favorite user the
returned list has length at most 6 and duplicate-free partner ids. -/
theorem get_recommendations_bounded_nodup_witness :
    ([⟨"1", "Fine Dining", 4, 0⟩, ⟨"2", "Wellness & Spa", 4, 0⟩]
        : List PartnerRec).length ≤ 6 ∧
    6 ≤ configNumRecommendations none ∧
    (([⟨"1", "Fine Dining", 4, 0⟩, ⟨"2", "Wellness & Spa", 4, 0⟩]
        : List PartnerRec).map PartnerRec.id).Nodup :=
  get_recommendations_bounded_nodup
    (⟨[⟨"5", ["Fine Dining", "Wellness & Spa"]⟩],
      [⟨"1", "Fine Dining", 4, 0⟩, ⟨"2", "Wellness & Spa", 4, 0⟩],
      [("w", "5")], []⟩ : Db)
    (some "w")
    [⟨"1", "Fine Dining", 4, 0⟩, ⟨"2", "Wellness & Spa", 4, 0⟩]
    (by simp [get_recommendations, get_current_user, findUser,
      categoryPartners])
    (by simp) (by simp)

/-! ## Claim C9: the review rating update is a drifting running average -/

/-- Looking a partner up after `create_review`'s update touches exactly the
entry with the posted partner id. -/
theorem find?_partner_update (l : List PartnerRec) (pid : String) (r : ℚ) :
    (l.map fun p =>
        if p.id = pid then
          { p with reviewsCount := p.reviewsCount + 1,
                   rating := (p.rating + r) / 2 }
        else p).find? (fun p => p.id = pid)
      = (l.find? fun p => p.id = pid).map fun p =>
          { p with reviewsCount := p.reviewsCount + 1,
                   rating := (p.rating + r) / 2 } := by
  induction l with
  | nil => rfl
  | cons a t ih =>
      by_cases h : a.id = pid
      · simp [List.find?_cons, h]
      · simp [List.find?_cons, h, ih]

/-- The example database for the order-dependence part of C9: one partner
with stored rating 4, one logged-in user. -/
def dbReviewExample : Db :=
  ⟨[⟨"1", []⟩], [⟨"1", "Fine Dining", 4, 0⟩], [("t", "1")], []⟩

/-- C9. Each accepted review replaces the partner's stored rating by
`(old_rating + new_rating) / 2`. This is not the arithmetic mean of all
reviews, and the final stored value depends on arrival order: starting from
rating 4, the reviews {2, 4} leave 7/2 when posted as 2-then-4 but 3 when
posted as 4-then-2, while their true mean is 3. -/
theorem create_review_running_average
    (db : Db) (token : Option String) (rv : ReviewIn) (db2 : Db)
    (p0 : PartnerRec)
    (hok : create_review db token rv = ApiResult.ok db2)
    (hp : db.partners.find? (fun p => p.id = rv.partnerId) = some p0) :
    partnerRating db2 rv.partnerId = some ((p0.rating + rv.rating) / 2) ∧
    partnerRating
        (create_review_run dbReviewExample (some "t")
          [⟨"1", 2⟩, ⟨"1", 4⟩]) "1" = some (7 / 2) ∧
    partnerRating
        (create_review_run dbReviewExample (some "t")
          [⟨"1", 4⟩, ⟨"1", 2⟩]) "1" = some 3 ∧
    ¬ (7 : ℚ) / 2 = 3 ∧
    ((2 : ℚ) + 4) / 2 = 3 := by
  have h2 : create_review dbReviewExample (some "t") ⟨"1", 2⟩
      = ApiResult.ok ⟨[⟨"1", []⟩], [⟨"1", "Fine Dining", 3, 1⟩],
          [("t", "1")], [⟨"1", "1", 2⟩]⟩ := by
    simp [create_review, get_current_user, dbReviewExample]
    norm_num
  have h4 : create_review dbReviewExample (some "t") ⟨"1", 4⟩
      = ApiResult.ok ⟨[⟨"1", []⟩], [⟨"1", "Fine Dining", 4, 1⟩],
          [("t", "1")], [⟨"1", "1", 4⟩]⟩ := by
    simp [create_review, get_current_user, dbReviewExample]
  have h24 : create_review
      (⟨[⟨"1", []⟩], [⟨"1", "Fine Dining", 3, 1⟩], [("t", "1")],
        [⟨"1", "1", 2⟩]⟩ : Db) (some "t") ⟨"1", 4⟩
      = ApiResult.ok ⟨[⟨"1", []⟩], [⟨"1", "Fine Dining", 7 / 2, 2⟩],
          [("t", "1")], [⟨"1", "1", 2⟩, ⟨"1", "1", 4⟩]⟩ := by
    simp [create_review, get_current_user]
    norm_num
  have h42 : create_review
      (⟨[⟨"1", []⟩], [⟨"1", "Fine Dining", 4, 1⟩], [("t", "1")],
        [⟨"1", "1", 4⟩]⟩ : Db) (some "t") ⟨"1", 2⟩
      = ApiResult.ok ⟨[⟨"1", []⟩], [⟨"1", "Fine Dining", 3, 2⟩],
          [("t", "1")], [⟨"1", "1", 4⟩, ⟨"1", "1", 2⟩]⟩ := by
    simp [create_review, get_current_user]
    norm_num
  refine ⟨?_, ?_, ?_, by norm_num, by norm_num⟩
  · unfold create_review at hok
    split at hok
    · cases hok
    · cases hok
      unfold partnerRating
      rw [find?_partner_update, hp]
      simp
  · rw [create_review_run, List.foldl_cons, h2, List.foldl_cons, h24,
      List.foldl_nil]
    simp [partnerRating]
  · rw [create_review_run, List.foldl_cons, h4, List.foldl_cons, h42,
      List.foldl_nil]
    simp [partnerRating]

/-- Witness for C9: posting one rating-2 review on the example database
halves the stored rating from 4 to (4 + 2)/2. -/
theorem create_review_running_average_witness :
    partnerRating
        (⟨[⟨"1", []⟩],
          [⟨"1", "Fine Dining", (4 + 2) / 2, 1⟩],
          [("t", "1")],
          [⟨"1", "1", 2⟩]⟩ : Db) "1"
      = some (((4 : ℚ) + 2) / 2) ∧
    partnerRating
        (create_review_run dbReviewExample (some "t")
          [⟨"1", 2⟩, ⟨"1", 4⟩]) "1" = some (7 / 2) :=
  ⟨(create_review_running_average dbReviewExample (some "t") ⟨"1", 2⟩
      (⟨[⟨"1", []⟩],
        [⟨"1", "Fine Dining", (4 + 2) / 2, 1⟩],
        [("t", "1")],
        [⟨"1", "1", 2⟩]⟩ : Db)
      ⟨"1", "Fine Dining", 4, 0⟩
      (by simp [create_review, get_current_user, dbReviewExample])
      (by simp [dbReviewExample, List.find?_cons])).1,
    (create_review_running_average dbReviewExample (some "t") ⟨"1", 2⟩
      (⟨[⟨"1", []⟩],
        [⟨"1", "Fine Dining", (4 + 2) / 2, 1⟩],
        [("t", "1")],
        [⟨"1", "1", 2⟩]⟩ : Db)
      ⟨"1", "Fine Dining", 4, 0⟩
      (by simp [create_review, get_current_user, dbReviewExample])
      (by simp [dbReviewExample, List.find?_cons])).2.1⟩

end BoomCard
